import Mathlib

/-!
Shallow embedding of the QR-token lifecycle service (src/main.py, src/database.py).

Timestamps are modelled as integers (seconds since an arbitrary epoch); a Python
`timedelta(hours = h)` is `h * 3600` seconds and `timedelta.days` is floor
division of the total seconds by 86400, matching Python's normalisation.
`datetime.utcnow()` becomes an explicit `now : Int` parameter of each operation.
The SQLAlchemy session is modelled as a list of rows; `query(...).first()` is
`List.find?` and an ORM in-place row mutation is a functional replacement of
the first matching row.
-/

/-- `TokenType` enum from src/database.py: only EMPLEADO and JEFE exist. -/
inductive TokenType where
  | EMPLEADO
  | JEFE
deriving DecidableEq, Repr

/-- `.value` of the Python enum member. -/
def TokenType.value : TokenType → String
  | .EMPLEADO => "empleado"
  | .JEFE => "jefe"

/-- A row of the `qr_tokens` table (src/database.py, class QRToken). -/
structure QRToken where
  id : Nat
  token : String
  empleado_id : Int
  tipo_token : TokenType
  creado_en : Int
  expira_en : Int
  usado : Bool
  usado_en : Option Int
  qr_code_base64 : Option String
  activo : Bool
  departamento : Option String
  permisos_especiales : Option String
deriving DecidableEq, Repr

/-- The store: the rows of the `qr_tokens` table, in insertion order. -/
abbrev Store := List QRToken

/-- `calcular_estado_token` (src/main.py lines 103-112). -/
def calcular_estado_token (now : Int) (t : QRToken) : String :=
  if !t.activo then "DESACTIVADO"
  else if t.usado then "USADO"
  else if now > t.expira_en then "EXPIRADO"
  else "ACTIVO"

/-- `calcular_dias_restantes` (src/main.py lines 114-117): Python
`timedelta.days` floors, and the result is clamped below at 0. -/
def calcular_dias_restantes (now : Int) (expira_en : Int) : Int :=
  max 0 (Int.fdiv (expira_en - now) 86400)

/-- The `DURACION_DEFAULT` table lookup `get_duracion_default`
(src/main.py lines 142-144): `dict.get` with default `DURACION_DEFAULT["empleado"]`. -/
def get_duracion_default (tipo_token : String) : Int :=
  if tipo_token = "empleado" then 8760
  else if tipo_token = "jefe" then 8760
  else if tipo_token = "temporal" then 24
  else if tipo_token = "visitante" then 4
  else 8760

/-- Request body of POST /tokens/generate (`TokenGenerationRequest`). -/
structure TokenGenerationRequest where
  empleado_id : Int
  duracion_horas : Option Int
  tipo_token : String
  departamento : Option String
  permisos_especiales : Option String
  descripcion : Option String
deriving DecidableEq, Repr

/-- Python truthiness of an `Optional[str]`: falsy when `None` or `""`. -/
def opt_str_falsy : Option String → Bool
  | none => true
  | some s => s.isEmpty

/-- `request.duracion_horas or get_duracion_default(request.tipo_token)`
(src/main.py line 174): Python `or` falls through on `None` and `0`,
but keeps any nonzero value, negative included. -/
def resolve_duracion (req : TokenGenerationRequest) : Int :=
  match req.duracion_horas with
  | none => get_duracion_default req.tipo_token
  | some h => if h = 0 then get_duracion_default req.tipo_token else h

/-- `db.query(QRToken).filter(QRToken.token == token).first()` returns a row. -/
def token_exists (store : Store) (v : String) : Bool :=
  store.any (fun t => t.token == v)

/-- The uniqueness retry loop of `generate_qr_token` (src/main.py lines 184-186):
`token = generate_token(); while store has token: token = generate_token()`.
The random generator is modelled as the stream `gen` of values it would
produce; `fuel` bounds how many loop iterations we unfold, with `none`
meaning the loop is still running after `fuel` draws. -/
def find_unique_from (store : Store) (gen : Nat → String) (start : Nat) :
    Nat → Option String
  | 0 => none
  | fuel + 1 =>
    if token_exists store (gen start) then find_unique_from store gen (start + 1) fuel
    else some (gen start)

/-- The full retry loop, starting at the first draw. -/
def find_unique (store : Store) (gen : Nat → String) (fuel : Nat) : Option String :=
  find_unique_from store gen 0 fuel

/-- Errors raised by `generate_qr_token` as `HTTPException(400)`. -/
inductive GenError where
  | invalidTipo
  | departamentoRequerido
deriving DecidableEq, Repr

/-- The `QRToken(...)` row built at src/main.py lines 192-202: the enum value
collapses every non-"empleado" request to `JEFE` (the DB enum has no other
member), `expira_en` is `utcnow + timedelta(hours = duracion_horas)`,
`departamento` is kept only for "jefe" requests, `permisos_especiales` is
copied unconditionally, and `usado`/`usado_en`/`activo` take the column
defaults from src/database.py. -/
def mk_db_token (now : Int) (nextId : Nat) (tok : String) (qr : Option String)
    (req : TokenGenerationRequest) : QRToken :=
  { id := nextId
    token := tok
    empleado_id := req.empleado_id
    tipo_token := if req.tipo_token = "empleado" then TokenType.EMPLEADO
                  else TokenType.JEFE
    creado_en := now
    expira_en := now + resolve_duracion req * 3600
    usado := false
    usado_en := none
    qr_code_base64 := qr
    activo := true
    departamento := if req.tipo_token = "jefe" then req.departamento else none
    permisos_especiales := req.permisos_especiales }

/-- `generate_qr_token` (src/main.py lines 161-208). `nextId` is the
store-assigned primary key, `qr` the (best-effort, possibly absent) rendering
produced by `generate_qr_code`, `gen`/`fuel` drive the uniqueness loop.
The outer `none` means the uniqueness loop has not finished within `fuel`
draws; otherwise the result is the HTTP outcome, with the new store and
the persisted row on success. -/
def generate_qr_token (now : Int) (nextId : Nat) (gen : Nat → String) (fuel : Nat)
    (qr : Option String) (req : TokenGenerationRequest) (store : Store) :
    Option (Except GenError (Store × QRToken)) :=
  if ¬ (req.tipo_token = "empleado" ∨ req.tipo_token = "jefe" ∨
        req.tipo_token = "temporal" ∨ req.tipo_token = "visitante") then
    some (.error .invalidTipo)
  else if req.tipo_token = "jefe" ∧ opt_str_falsy req.departamento then
    some (.error .departamentoRequerido)
  else
    match find_unique store gen fuel with
    | none => none
    | some tok =>
      let db_token := mk_db_token now nextId tok qr req
      some (.ok (store ++ [db_token], db_token))

/-- Response body of the validate endpoint (`TokenValidationResponse`);
the ad hoc `token_data` dict is projected to its `"estado"` entry, the only
part of it a lifecycle property depends on. -/
structure TokenValidationResponse where
  valid : Bool
  message : String
  estado : Option String
  warnings : List String
deriving DecidableEq, Repr

/-- `validate_token` (src/main.py lines 210-283). The endpoint only reads the
session (`query ... first()`), so the returned store is passed through each
branch exactly as in the source, which contains no mutation or commit. -/
def validate_token (now : Int) (tok : String) (store : Store) :
    Store × TokenValidationResponse :=
  match store.find? (fun t => t.token == tok) with
  | none => (store, ⟨false, "Token no encontrado", none, []⟩)
  | some db_token =>
    if !db_token.activo then
      (store, ⟨false, "Token desactivado por administrador", some "DESACTIVADO", []⟩)
    else if db_token.usado then
      (store, ⟨false, "Token ya fue utilizado", some "USADO", []⟩)
    else if now > db_token.expira_en then
      (store, ⟨false, "Token expirado", some "EXPIRADO", []⟩)
    else
      let dias_restantes := calcular_dias_restantes now db_token.expira_en
      let warnings :=
        if dias_restantes ≤ 7 then
          ["Token expira en " ++ toString dias_restantes ++ " dias"]
        else if dias_restantes ≤ 30 then
          ["Token expira en " ++ toString dias_restantes ++ " dias"]
        else []
      (store, ⟨true, "Token valido", some "ACTIVO", warnings⟩)

/-- Replace the first row whose `token` column equals `tok` by its image
under `f`: the effect of mutating the object returned by
`query(...).filter(QRToken.token == tok).first()` and committing. -/
def modify_first (f : QRToken → QRToken) (tok : String) : Store → Store
  | [] => []
  | t :: ts => if t.token == tok then f t :: ts else t :: modify_first f tok ts

/-- Result body of the use endpoint. -/
structure UseResult where
  success : Bool
  message : String
deriving DecidableEq, Repr

/-- `use_token` (src/main.py lines 555-586). -/
def use_token (now : Int) (tok : String) (store : Store) : Store × UseResult :=
  match store.find? (fun t => t.token == tok) with
  | none => (store, ⟨false, "Token no encontrado"⟩)
  | some db_token =>
    if !db_token.activo then (store, ⟨false, "Token desactivado"⟩)
    else if db_token.usado then (store, ⟨false, "Token ya fue usado"⟩)
    else if now > db_token.expira_en then (store, ⟨false, "Token expirado"⟩)
    else
      (modify_first (fun t => { t with usado := true, usado_en := some now }) tok store,
       ⟨true, "Token usado exitosamente"⟩)

/-- Request body of the admin update endpoint (`TokenUpdateRequest`). -/
structure TokenUpdateRequest where
  activo : Option Bool
  descripcion : Option String
  extender_horas : Option Int
deriving DecidableEq, Repr

/-- The field updates of `update_token_admin` (src/main.py lines 356-361):
`activo` is set when the request carries it (`is not None`); `extender_horas`
is applied only when truthy (so `0` is skipped) and adds hours to the
current `expira_en`. The commented-out `descripcion` update is absent. -/
def apply_update (req : TokenUpdateRequest) (t : QRToken) : QRToken :=
  let t1 := match req.activo with
            | some a => { t with activo := a }
            | none => t
  match req.extender_horas with
  | some h => if h = 0 then t1 else { t1 with expira_en := t1.expira_en + h * 3600 }
  | none => t1

/-- `update_token_admin` (src/main.py lines 340-374); the Bool records
whether the token was found (`false` models the HTTP 404). -/
def update_token_admin (tok : String) (req : TokenUpdateRequest) (store : Store) :
    Store × Bool :=
  match store.find? (fun t => t.token == tok) with
  | none => (store, false)
  | some _ => (modify_first (apply_update req) tok store, true)

/-- The row changes of `refresh_token` (src/main.py lines 388-398):
`expira_en := now + nuevas_horas`, reactivation when inactive, and the
`usado`/`usado_en` reset left commented out in the source. -/
def apply_refresh (now : Int) (nuevas_horas : Int) (t : QRToken) : QRToken :=
  let t1 := { t with expira_en := now + nuevas_horas * 3600 }
  if !t1.activo then { t1 with activo := true } else t1

/-- `refresh_token` (src/main.py lines 376-408); the Bool records whether
the token was found. -/
def refresh_token (now : Int) (tok : String) (nuevas_horas : Int) (store : Store) :
    Store × Bool :=
  match store.find? (fun t => t.token == tok) with
  | none => (store, false)
  | some _ => (modify_first (apply_refresh now nuevas_horas) tok store, true)

/-- `deactivate_employee_tokens` (src/main.py lines 410-439): deactivate
every active token of the employee; the count of affected rows is returned. -/
def deactivate_employee_tokens (empleado_id : Int) (store : Store) : Store × Nat :=
  let hit := fun (t : QRToken) => t.empleado_id == empleado_id && t.activo
  (store.map (fun t => if hit t then { t with activo := false } else t),
   (store.filter hit).length)

/-- `cleanup_expired_tokens` (src/main.py lines 441-461): deactivate every
token with `expira_en < now` that is still active; returns the count. -/
def cleanup_expired_tokens (now : Int) (store : Store) : Store × Nat :=
  let hit := fun (t : QRToken) => decide (t.expira_en < now) && t.activo
  (store.map (fun t => if hit t then { t with activo := false } else t),
   (store.filter hit).length)

/-- One lifecycle operation, carrying the request-time data the endpoint
reads from the environment (`now`, the store-assigned id, the random stream). -/
inductive Op where
  | generate (now : Int) (nextId : Nat) (gen : Nat → String) (fuel : Nat)
             (qr : Option String) (req : TokenGenerationRequest)
  | validate (now : Int) (tok : String)
  | use (now : Int) (tok : String)
  | update (tok : String) (req : TokenUpdateRequest)
  | refresh (now : Int) (tok : String) (nuevas_horas : Int)
  | deactivateEmployee (empleado_id : Int)
  | cleanup (now : Int)

/-- The store after one endpoint call (responses discarded; a rejected or
still-retrying generate commits nothing). -/
def apply_op (op : Op) (store : Store) : Store :=
  match op with
  | .generate now nextId gen fuel qr req =>
    match generate_qr_token now nextId gen fuel qr req store with
    | some (.ok (store1, _)) => store1
    | _ => store
  | .validate now tok => (validate_token now tok store).1
  | .use now tok => (use_token now tok store).1
  | .update tok req => (update_token_admin tok req store).1
  | .refresh now tok h => (refresh_token now tok h store).1
  | .deactivateEmployee e => (deactivate_employee_tokens e store).1
  | .cleanup now => (cleanup_expired_tokens now store).1

/-- The store reached from a store by a sequence of endpoint calls. -/
def run_ops (ops : List Op) (store : Store) : Store :=
  match ops with
  | [] => store
  | op :: rest => run_ops rest (apply_op op store)

/-- The `consumedAt iff consumed` invariant of the data model. -/
def consumedInv (store : Store) : Prop :=
  ∀ t ∈ store, t.usado_en ≠ none ↔ t.usado = true

/-- The derived-state rules as the specification words them (§3): strict
priority order DEACTIVATED, then CONSUMED, then EXPIRED, else ACTIVE, with
the state names mapped to the strings the service uses. A second definition
kept deliberately separate from `calcular_estado_token` for comparison. -/
def estado_spec (now : Int) (t : QRToken) : String :=
  if t.activo = false then "DESACTIVADO"
  else if t.usado = true then "USADO"
  else if t.expira_en < now then "EXPIRADO"
  else "ACTIVO"

/-- A sample fully-dead row: deactivated, consumed, long expired. -/
def tok_muerto : QRToken :=
  { id := 1, token := "TOK1", empleado_id := 7, tipo_token := .EMPLEADO
    creado_en := 0, expira_en := 10, usado := true, usado_en := some 5
    qr_code_base64 := none, activo := false
    departamento := none, permisos_especiales := none }

/-- C1: the derived state is computed in the spec's strict priority order
(deactivated, then consumed, then expired, else active); in particular a
token with `activo = false`, `usado = true` and a past `expira_en` reports
DESACTIVADO. -/
theorem estado_priority_order :
    (∀ (now : Int) (t : QRToken), calcular_estado_token now t = estado_spec now t) ∧
    (∀ (now : Int) (t : QRToken), t.activo = false → t.usado = true →
      t.expira_en < now → calcular_estado_token now t = "DESACTIVADO") := by
  constructor
  · intro now t
    unfold calcular_estado_token estado_spec
    cases h : t.activo <;> simp [h]
  · intro now t ha _ _
    unfold calcular_estado_token
    simp [ha]

/-- Witness for C1 at the concrete dead token. -/
theorem estado_priority_order_witness :
    calcular_estado_token 100 tok_muerto = "DESACTIVADO" :=
  estado_priority_order.2 100 tok_muerto rfl rfl (by decide)

/-- Every branch of `validate_token` returns the store untouched. -/
theorem validate_token_fst (now : Int) (tok : String) (store : Store) :
    (validate_token now tok store).1 = store := by
  unfold validate_token
  cases store.find? (fun t => t.token == tok) with
  | none => rfl
  | some db_token =>
    dsimp only
    repeat' split
    all_goals rfl

/-- C6: validating is read-only — the store after `validate_token` is the
store before it, so no stored token's `usado`, `usado_en`, `activo` or
`expira_en` field changes, whatever the validity verdict. -/
theorem validate_token_read_only :
    ∀ (now : Int) (tok : String) (store : Store),
      (validate_token now tok store).1 = store ∧
      List.Forall₂ (fun t t1 => t.usado = t1.usado ∧ t.usado_en = t1.usado_en ∧
        t.activo = t1.activo ∧ t.expira_en = t1.expira_en)
        store (validate_token now tok store).1 := by
  intro now tok store
  have h1 := validate_token_fst now tok store
  refine ⟨h1, ?_⟩
  rw [h1, List.forall₂_same]
  intro t _
  exact ⟨rfl, rfl, rfl, rfl⟩

/-- C10: `dias_restantes` is the floor of the remaining time in whole days,
clamped below at zero — never negative, zero for any expired token, and
zero for a token expiring in less than 24 hours. -/
theorem dias_restantes_floor_clamped :
    (∀ now expira_en : Int,
      calcular_dias_restantes now expira_en = max 0 (Int.fdiv (expira_en - now) 86400)) ∧
    (∀ now expira_en : Int, 0 ≤ calcular_dias_restantes now expira_en) ∧
    (∀ now expira_en : Int, expira_en ≤ now → calcular_dias_restantes now expira_en = 0) ∧
    (∀ now expira_en : Int, expira_en - now < 86400 →
      calcular_dias_restantes now expira_en = 0) := by
  have key : ∀ d : Int, d < 86400 → Int.fdiv d 86400 ≤ 0 := by
    intro d hd
    rw [Int.fdiv_eq_ediv _ (by decide : (0 : Int) ≤ 86400)]
    omega
  refine ⟨fun _ _ => rfl, fun _ _ => le_max_left 0 _, ?_, ?_⟩
  · intro now expira_en h
    unfold calcular_dias_restantes
    have := key (expira_en - now) (by omega)
    omega
  · intro now expira_en h
    unfold calcular_dias_restantes
    have := key (expira_en - now) h
    omega

/-- Witness for C10 at concrete times: expired by 90000 seconds → 0 days;
23 hours remaining → 0 days. -/
theorem dias_restantes_floor_clamped_witness :
    calcular_dias_restantes 100000 10000 = 0 ∧ calcular_dias_restantes 0 82800 = 0 :=
  ⟨dias_restantes_floor_clamped.2.2.1 100000 10000 (by decide),
   dias_restantes_floor_clamped.2.2.2 0 82800 (by decide)⟩

/-- When the kind is valid, the jefe-department rule is satisfied and the
uniqueness loop yields `v`, generation succeeds and appends exactly the row
`mk_db_token now nextId v qr req`. -/
theorem generate_qr_token_ok (now : Int) (nextId : Nat) (gen : Nat → String)
    (fuel : Nat) (qr : Option String) (req : TokenGenerationRequest) (store : Store)
    (v : String)
    (hvalid : req.tipo_token = "empleado" ∨ req.tipo_token = "jefe" ∨
              req.tipo_token = "temporal" ∨ req.tipo_token = "visitante")
    (hdep : req.tipo_token = "jefe" → opt_str_falsy req.departamento = false)
    (hfind : find_unique store gen fuel = some v) :
    generate_qr_token now nextId gen fuel qr req store =
      some (.ok (store ++ [mk_db_token now nextId v qr req],
                 mk_db_token now nextId v qr req)) := by
  unfold generate_qr_token
  rw [if_neg (not_not_intro hvalid)]
  rw [if_neg (fun hj => by rw [hdep hj.1] at hj; exact Bool.false_ne_true hj.2)]
  rw [hfind]

/-- Sample request: a "temporal" token for employee 5 with the default
duration and no supervisor fields. -/
def req_temporal : TokenGenerationRequest :=
  { empleado_id := 5, duracion_horas := none, tipo_token := "temporal"
    departamento := none, permisos_especiales := none, descripcion := none }

/-- Project a generation outcome to the persisted row, when there is one. -/
def gen_result_token : Option (Except GenError (Store × QRToken)) → Option QRToken
  | some (.ok (_, t)) => some t
  | _ => none

/-- C2 counterexample: the request kind "temporal" is in the supported set and
generation succeeds, but the persisted row's kind is the enum value "jefe",
not "temporal" — the persisted kind differs from the requested kind. -/
theorem persisted_kind_counterexample :
    (gen_result_token (generate_qr_token 0 1 (fun _ => "TOKA") 1 none req_temporal [])).map
        (fun t => t.tipo_token.value) = some "jefe" ∧
    req_temporal.tipo_token = "temporal" ∧
    ("jefe" : String) ≠ "temporal" := by
  refine ⟨?_, rfl, by decide⟩
  rfl

/-- C2 amended: for every request whose kind is in the supported set (with a
department present when the kind is "jefe") and whose uniqueness loop finds a
value, generation succeeds; the persisted kind equals the requested kind when
the request is "empleado" or "jefe", while "temporal" and "visitante"
requests are persisted with kind JEFE (the store enum has no other member). -/
theorem persisted_kind_of_generate (now : Int) (nextId : Nat) (gen : Nat → String)
    (fuel : Nat) (qr : Option String) (req : TokenGenerationRequest) (store : Store)
    (v : String)
    (hvalid : req.tipo_token = "empleado" ∨ req.tipo_token = "jefe" ∨
              req.tipo_token = "temporal" ∨ req.tipo_token = "visitante")
    (hdep : req.tipo_token = "jefe" → opt_str_falsy req.departamento = false)
    (hfind : find_unique store gen fuel = some v) :
    ∃ t : QRToken,
      generate_qr_token now nextId gen fuel qr req store =
        some (.ok (store ++ [t], t)) ∧
      ((req.tipo_token = "empleado" ∨ req.tipo_token = "jefe") →
        t.tipo_token.value = req.tipo_token) ∧
      ((req.tipo_token = "temporal" ∨ req.tipo_token = "visitante") →
        t.tipo_token = TokenType.JEFE) := by
  refine ⟨mk_db_token now nextId v qr req,
    generate_qr_token_ok now nextId gen fuel qr req store v hvalid hdep hfind, ?_, ?_⟩
  · rintro (h | h) <;> simp [mk_db_token, h, TokenType.value]
  · rintro (h | h) <;> simp [mk_db_token, h, TokenType.value]

/-- Witness for the amended C2: a concrete "empleado" request persisted with
kind "empleado". -/
theorem persisted_kind_of_generate_witness :
    ∃ t : QRToken,
      generate_qr_token 0 1 (fun _ => "TOKA") 1 none
          { empleado_id := 5, duracion_horas := none, tipo_token := "empleado"
            departamento := none, permisos_especiales := none, descripcion := none } [] =
        some (.ok ([t], t)) ∧
      (("empleado" = "empleado" ∨ ("empleado" : String) = "jefe") →
        t.tipo_token.value = "empleado") ∧
      ((("empleado" : String) = "temporal" ∨ ("empleado" : String) = "visitante") →
        t.tipo_token = TokenType.JEFE) :=
  persisted_kind_of_generate 0 1 (fun _ => "TOKA") 1 none _ [] "TOKA"
    (Or.inl rfl) (fun h => by simp at h) rfl

/-- Sample request: an "empleado" token that nevertheless supplies
`permisos_especiales`. -/
def req_empleado_permisos : TokenGenerationRequest :=
  { empleado_id := 5, duracion_horas := none, tipo_token := "empleado"
    departamento := some "ops", permisos_especiales := some "acceso total"
    descripcion := none }

/-- C4 counterexample: an "empleado" (non-supervisor) request that supplies
`permisos_especiales` is persisted with that value, not with null — the
source copies `request.permisos_especiales` unconditionally, while only
`departamento` is nulled for non-"jefe" kinds. -/
theorem nonjefe_permisos_counterexample :
    req_empleado_permisos.tipo_token ≠ "jefe" ∧
    (gen_result_token
        (generate_qr_token 0 1 (fun _ => "TOKA") 1 none req_empleado_permisos [])).map
      (fun t => (t.departamento, t.permisos_especiales)) =
      some (none, some "acceso total") ∧
    some "acceso total" ≠ (none : Option String) := by
  refine ⟨by decide, ?_, by decide⟩
  rfl

/-- C4 amended: for every successful generation, the persisted
`departamento` is the requested one when the kind is "jefe" and null
otherwise, while the persisted `permisos_especiales` always equals the
requested value, whatever the kind. -/
theorem generate_department_permisos (now : Int) (nextId : Nat) (gen : Nat → String)
    (fuel : Nat) (qr : Option String) (req : TokenGenerationRequest) (store : Store)
    (v : String)
    (hvalid : req.tipo_token = "empleado" ∨ req.tipo_token = "jefe" ∨
              req.tipo_token = "temporal" ∨ req.tipo_token = "visitante")
    (hdep : req.tipo_token = "jefe" → opt_str_falsy req.departamento = false)
    (hfind : find_unique store gen fuel = some v) :
    ∃ t : QRToken,
      generate_qr_token now nextId gen fuel qr req store =
        some (.ok (store ++ [t], t)) ∧
      t.departamento = (if req.tipo_token = "jefe" then req.departamento else none) ∧
      t.permisos_especiales = req.permisos_especiales := by
  exact ⟨mk_db_token now nextId v qr req,
    generate_qr_token_ok now nextId gen fuel qr req store v hvalid hdep hfind,
    rfl, rfl⟩

/-- Witness for the amended C4 at the concrete "empleado" request with
supplied permissions. -/
theorem generate_department_permisos_witness :
    ∃ t : QRToken,
      generate_qr_token 0 1 (fun _ => "TOKA") 1 none req_empleado_permisos [] =
        some (.ok ([t], t)) ∧
      t.departamento =
        (if req_empleado_permisos.tipo_token = "jefe"
         then req_empleado_permisos.departamento else none) ∧
      t.permisos_especiales = req_empleado_permisos.permisos_especiales :=
  generate_department_permisos 0 1 (fun _ => "TOKA") 1 none req_empleado_permisos [] "TOKA"
    (Or.inl rfl) (fun h => by simp [req_empleado_permisos] at h) rfl

/-- Sample request: an "empleado" token asking for a negative duration. -/
def req_negativo : TokenGenerationRequest :=
  { empleado_id := 5, duracion_horas := some (-5), tipo_token := "empleado"
    departamento := none, permisos_especiales := none, descripcion := none }

/-- C5 counterexample: a negative requested duration (-5 hours) is not
replaced by the per-kind default — `duracion or default` in Python only
falls through on `None` and `0` — so the persisted `expira_en` is
`now - 18000` seconds, not `now + 8760 * 3600` as the claim requires for
an "empleado" token created at `now = 0`. -/
theorem negative_duration_counterexample :
    (gen_result_token (generate_qr_token 0 1 (fun _ => "TOKA") 1 none req_negativo [])).map
        (fun t => t.expira_en) = some (-18000) ∧
    get_duracion_default "empleado" = 8760 ∧
    (-18000 : Int) ≠ 0 + 8760 * 3600 := by
  refine ⟨?_, rfl, by decide⟩
  rfl

/-- C5 amended: for every successful generation, `expira_en` is the creation
time plus the requested hours whenever the request carries a nonzero value
(negative values included, yielding an already-past expiry); only an absent
or zero requested duration falls back to the per-kind default. -/
theorem generate_duration_resolution (now : Int) (nextId : Nat) (gen : Nat → String)
    (fuel : Nat) (qr : Option String) (req : TokenGenerationRequest) (store : Store)
    (v : String)
    (hvalid : req.tipo_token = "empleado" ∨ req.tipo_token = "jefe" ∨
              req.tipo_token = "temporal" ∨ req.tipo_token = "visitante")
    (hdep : req.tipo_token = "jefe" → opt_str_falsy req.departamento = false)
    (hfind : find_unique store gen fuel = some v) :
    ∃ t : QRToken,
      generate_qr_token now nextId gen fuel qr req store =
        some (.ok (store ++ [t], t)) ∧
      ((req.duracion_horas = none ∨ req.duracion_horas = some 0) →
        t.expira_en = now + get_duracion_default req.tipo_token * 3600) ∧
      (∀ h : Int, req.duracion_horas = some h → h ≠ 0 →
        t.expira_en = now + h * 3600) := by
  refine ⟨mk_db_token now nextId v qr req,
    generate_qr_token_ok now nextId gen fuel qr req store v hvalid hdep hfind, ?_, ?_⟩
  · rintro (h | h) <;> simp [mk_db_token, resolve_duracion, h]
  · intro h hh hne
    simp [mk_db_token, resolve_duracion, hh, hne]

/-- Witness for the amended C5 at the concrete negative-duration request. -/
theorem generate_duration_resolution_witness :
    ∃ t : QRToken,
      generate_qr_token 0 1 (fun _ => "TOKA") 1 none req_negativo [] =
        some (.ok ([t], t)) ∧
      ((req_negativo.duracion_horas = none ∨ req_negativo.duracion_horas = some 0) →
        t.expira_en = 0 + get_duracion_default req_negativo.tipo_token * 3600) ∧
      (∀ h : Int, req_negativo.duracion_horas = some h → h ≠ 0 →
        t.expira_en = 0 + h * 3600) :=
  generate_duration_resolution 0 1 (fun _ => "TOKA") 1 none req_negativo [] "TOKA"
    (Or.inl rfl) (fun h => by simp [req_negativo] at h) rfl

/-- Any value the retry loop returns is absent from the store. -/
theorem find_unique_from_fresh (store : Store) (gen : Nat → String) :
    ∀ (fuel start : Nat) (v : String),
      find_unique_from store gen start fuel = some v → token_exists store v = false := by
  intro fuel
  induction fuel with
  | zero => intro start v h; simp [find_unique_from] at h
  | succ n ih =>
    intro start v h
    unfold find_unique_from at h
    by_cases hc : token_exists store (gen start) = true
    · rw [if_pos hc] at h
      exact ih (start + 1) v h
    · rw [if_neg hc] at h
      injection h with h1
      subst h1
      simpa using hc

/-- If every draw collides, the loop is still running after any number of
draws: the source's `while` has no retry cap and no failure outcome. -/
theorem find_unique_from_collides (store : Store) (gen : Nat → String)
    (hall : ∀ k, token_exists store (gen k) = true) :
    ∀ (fuel start : Nat), find_unique_from store gen start fuel = none := by
  intro fuel
  induction fuel with
  | zero => intro start; rfl
  | succ n ih =>
    intro start
    unfold find_unique_from
    rw [if_pos (hall start)]
    exact ih (start + 1)

/-- If some draw within the unfolding bound is fresh, the loop returns. -/
theorem find_unique_from_terminates (store : Store) (gen : Nat → String) :
    ∀ (fuel k start : Nat),
      token_exists store (gen (start + k)) = false → k < fuel →
      ∃ v, find_unique_from store gen start fuel = some v := by
  intro fuel
  induction fuel with
  | zero => intro k start _ hk; omega
  | succ n ih =>
    intro k start hfresh hk
    unfold find_unique_from
    by_cases hc : token_exists store (gen start) = true
    · rw [if_pos hc]
      cases k with
      | zero =>
        rw [Nat.add_zero] at hfresh
        rw [hfresh] at hc
        exact absurd hc (by decide)
      | succ m =>
        refine ih m (start + 1) ?_ (by omega)
        have h2 : start + 1 + m = start + (m + 1) := by omega
        rw [h2]
        exact hfresh
    · rw [if_neg hc]
      exact ⟨gen start, rfl⟩

/-- Sample stored row: an active, unconsumed token with value "TOKA". -/
def tok_a : QRToken :=
  { id := 2, token := "TOKA", empleado_id := 5, tipo_token := .EMPLEADO
    creado_en := 0, expira_en := 100000, usado := false, usado_en := none
    qr_code_base64 := none, activo := true, departamento := none
    permisos_especiales := none }

/-- C3 counterexample: against a store holding value "TOKA" and a generator
that always draws "TOKA", the uniqueness loop is still running after 11 and
even after 1000 draws — well past any 10-attempt cap — and never yields a
StoreExhausted-style failure: the whole generate call simply commits
nothing and keeps looping. -/
theorem retry_cap_counterexample :
    find_unique [tok_a] (fun _ => "TOKA") 11 = none ∧
    find_unique [tok_a] (fun _ => "TOKA") 1000 = none ∧
    generate_qr_token 0 2 (fun _ => "TOKA") 1000 none req_temporal [tok_a] = none := by
  have hall : ∀ k : Nat, token_exists [tok_a] ((fun _ : Nat => "TOKA") k) = true := by
    intro k
    rfl
  have hnone : find_unique [tok_a] (fun _ => "TOKA") 1000 = none :=
    find_unique_from_collides _ _ hall 1000 0
  refine ⟨find_unique_from_collides _ _ hall 11 0, hnone, ?_⟩
  have hvalid : req_temporal.tipo_token = "empleado" ∨ req_temporal.tipo_token = "jefe" ∨
      req_temporal.tipo_token = "temporal" ∨ req_temporal.tipo_token = "visitante" :=
    Or.inr (Or.inr (Or.inl rfl))
  unfold generate_qr_token
  rw [if_neg (not_not_intro hvalid)]
  rw [if_neg (fun hj => by simp [req_temporal] at hj)]
  rw [hnone]

/-- C3 amended: the retry loop draws a new value only while the store already
holds the drawn one; it has no retry cap and no StoreExhausted outcome — if
every draw collides, it is still running after any number of attempts — and
it terminates exactly when some draw is fresh, returning a value not present
in the store. -/
theorem find_unique_no_cap :
    (∀ (store : Store) (gen : Nat → String) (fuel : Nat) (v : String),
      find_unique store gen fuel = some v → token_exists store v = false) ∧
    (∀ (store : Store) (gen : Nat → String),
      (∀ k, token_exists store (gen k) = true) →
      ∀ fuel, find_unique store gen fuel = none) ∧
    (∀ (store : Store) (gen : Nat → String) (k fuel : Nat),
      token_exists store (gen k) = false → k < fuel →
      ∃ v, find_unique store gen fuel = some v ∧ token_exists store v = false) := by
  refine ⟨?_, ?_, ?_⟩
  · intro store gen fuel v h
    exact find_unique_from_fresh store gen fuel 0 v h
  · intro store gen hall fuel
    exact find_unique_from_collides store gen hall fuel 0
  · intro store gen k fuel hfresh hk
    obtain ⟨v, hv⟩ :=
      find_unique_from_terminates store gen fuel k 0 (by simpa using hfresh) hk
    exact ⟨v, hv, find_unique_from_fresh store gen fuel 0 v hv⟩

/-- Witness for the amended C3: a permanently colliding generator leaves the
loop running after 5 draws. -/
theorem find_unique_no_cap_witness :
    find_unique [tok_a] (fun _ => "TOKA") 5 = none :=
  find_unique_no_cap.2.1 [tok_a] (fun _ => "TOKA") (fun _ => rfl) 5

/-- `apply_update` never touches the `token` column. -/
theorem apply_update_token (req : TokenUpdateRequest) (u : QRToken) :
    (apply_update req u).token = u.token := by
  unfold apply_update
  cases req.activo <;> cases req.extender_horas <;> dsimp only <;> (try split) <;> rfl

/-- `apply_refresh` never touches the `token` column. -/
theorem apply_refresh_token (now h : Int) (u : QRToken) :
    (apply_refresh now h u).token = u.token := by
  unfold apply_refresh
  dsimp only
  split <;> rfl

/-- `apply_update` never touches `usado` or `usado_en`. -/
theorem apply_update_usado (req : TokenUpdateRequest) (u : QRToken) :
    (apply_update req u).usado = u.usado ∧ (apply_update req u).usado_en = u.usado_en := by
  unfold apply_update
  cases req.activo <;> cases req.extender_horas <;> dsimp only <;> (try split) <;>
    exact ⟨rfl, rfl⟩

/-- `apply_refresh` never touches `usado` or `usado_en`: the reset is
commented out in the source. -/
theorem apply_refresh_usado (now h : Int) (u : QRToken) :
    (apply_refresh now h u).usado = u.usado ∧
    (apply_refresh now h u).usado_en = u.usado_en := by
  unfold apply_refresh
  dsimp only
  split <;> exact ⟨rfl, rfl⟩

/-- `find?` on the `token` column commutes with `modify_first` by a field
update that keeps that column. -/
theorem find?_modify_first (f : QRToken → QRToken) (tok : String)
    (hf : ∀ u, (f u).token = u.token) :
    ∀ store : Store,
      (modify_first f tok store).find? (fun u => u.token == tok) =
        (store.find? (fun u => u.token == tok)).map f := by
  intro store
  induction store with
  | nil => rfl
  | cons t ts ih =>
    by_cases h : (t.token == tok) = true
    · unfold modify_first
      rw [if_pos h]
      rw [List.find?_cons_of_pos (p := fun u : QRToken => u.token == tok) _
        (show ((f t).token == tok) = true by rw [hf t]; exact h)]
      rw [List.find?_cons_of_pos (p := fun u : QRToken => u.token == tok) _ h]
      rfl
    · unfold modify_first
      rw [if_neg h]
      rw [List.find?_cons_of_neg (p := fun u : QRToken => u.token == tok) _ h]
      rw [List.find?_cons_of_neg (p := fun u : QRToken => u.token == tok) _ h]
      rw [ih]

/-- C7: with an extension request carrying only `extender_horas = h`, the
admin update sets the stored token's `expira_en` to its previous value plus
`h` hours (additive) and leaves `activo`, `usado` and `usado_en` alone;
refresh with `nuevas_horas = h` sets `expira_en` to `now` plus `h` hours
(absolute, ignoring the prior expiry), forces `activo` to true, and leaves
`usado` and `usado_en` unchanged. -/
theorem update_additive_refresh_absolute :
    ∀ (now h : Int) (tok : String) (store : Store) (t : QRToken),
      store.find? (fun u => u.token == tok) = some t →
      ((update_token_admin tok ⟨none, none, some h⟩ store).1.find?
          (fun u => u.token == tok) = some (apply_update ⟨none, none, some h⟩ t) ∧
        (apply_update ⟨none, none, some h⟩ t).expira_en = t.expira_en + h * 3600 ∧
        (apply_update ⟨none, none, some h⟩ t).activo = t.activo ∧
        (apply_update ⟨none, none, some h⟩ t).usado = t.usado ∧
        (apply_update ⟨none, none, some h⟩ t).usado_en = t.usado_en) ∧
      ((refresh_token now tok h store).1.find?
          (fun u => u.token == tok) = some (apply_refresh now h t) ∧
        (apply_refresh now h t).expira_en = now + h * 3600 ∧
        (apply_refresh now h t).activo = true ∧
        (apply_refresh now h t).usado = t.usado ∧
        (apply_refresh now h t).usado_en = t.usado_en) := by
  intro now h tok store t hfind
  constructor
  · refine ⟨?_, ?_, ?_, ?_, ?_⟩
    · unfold update_token_admin
      rw [hfind]
      dsimp only
      rw [find?_modify_first _ _ (apply_update_token _) store, hfind]
      rfl
    · unfold apply_update
      dsimp only
      by_cases h0 : h = 0
      · rw [if_pos h0, h0]
        ring
      · rw [if_neg h0]
    · unfold apply_update
      dsimp only
      split <;> rfl
    · exact (apply_update_usado _ t).1
    · exact (apply_update_usado _ t).2
  · refine ⟨?_, ?_, ?_, ?_, ?_⟩
    · unfold refresh_token
      rw [hfind]
      dsimp only
      rw [find?_modify_first _ _ (apply_refresh_token now h) store, hfind]
      rfl
    · unfold apply_refresh
      dsimp only
      split <;> rfl
    · unfold apply_refresh
      dsimp only
      by_cases ha : t.activo = true
      · rw [if_neg (by simp [ha])]
        exact ha
      · rw [if_pos (by simp at ha; simp [ha])]
    · exact (apply_refresh_usado now h t).1
    · exact (apply_refresh_usado now h t).2

/-- Witness for C7: extending the concrete stored token "TOKA" by 2 hours is
additive on its previous expiry, and refreshing it by 2 hours at time 50 is
absolute from 50. -/
theorem update_additive_refresh_absolute_witness :
    ((update_token_admin "TOKA" ⟨none, none, some 2⟩ [tok_a]).1.find?
        (fun u => u.token == "TOKA") = some (apply_update ⟨none, none, some 2⟩ tok_a) ∧
      (apply_update ⟨none, none, some 2⟩ tok_a).expira_en = tok_a.expira_en + 2 * 3600 ∧
      (apply_update ⟨none, none, some 2⟩ tok_a).activo = tok_a.activo ∧
      (apply_update ⟨none, none, some 2⟩ tok_a).usado = tok_a.usado ∧
      (apply_update ⟨none, none, some 2⟩ tok_a).usado_en = tok_a.usado_en) ∧
    ((refresh_token 50 "TOKA" 2 [tok_a]).1.find?
        (fun u => u.token == "TOKA") = some (apply_refresh 50 2 tok_a) ∧
      (apply_refresh 50 2 tok_a).expira_en = 50 + 2 * 3600 ∧
      (apply_refresh 50 2 tok_a).activo = true ∧
      (apply_refresh 50 2 tok_a).usado = tok_a.usado ∧
      (apply_refresh 50 2 tok_a).usado_en = tok_a.usado_en) :=
  update_additive_refresh_absolute 50 2 "TOKA" [tok_a] tok_a rfl

/-- Every row of a swept store fails the sweep's own predicate. -/
theorem cleanup_members (now : Int) (store : Store) :
    ∀ t ∈ (cleanup_expired_tokens now store).1,
      (decide (t.expira_en < now) && t.activo) = false := by
  have hmap : (cleanup_expired_tokens now store).1 =
      store.map (fun t => if decide (t.expira_en < now) && t.activo
                          then { t with activo := false } else t) := rfl
  intro t ht
  rw [hmap, List.mem_map] at ht
  obtain ⟨u, _, heq⟩ := ht
  by_cases hc : (decide (u.expira_en < now) && u.activo) = true
  · rw [if_pos hc] at heq
    rw [← heq]
    simp
  · rw [if_neg hc] at heq
    rw [← heq]
    simpa using hc

/-- C8: the expire sweep deactivates exactly the rows with `expira_en < now`
that are still active (each other row is kept verbatim), returns the count
of such rows, and is idempotent at a fixed current time: a second sweep
affects zero rows and returns the same store. -/
theorem cleanup_exact_idempotent :
    ∀ (now : Int) (store : Store),
      ((cleanup_expired_tokens now store).2 =
        (store.filter (fun t => decide (t.expira_en < now) && t.activo)).length) ∧
      List.Forall₂ (fun t t1 =>
          (t.expira_en < now ∧ t.activo = true → t1 = { t with activo := false }) ∧
          (¬(t.expira_en < now ∧ t.activo = true) → t1 = t))
        store (cleanup_expired_tokens now store).1 ∧
      cleanup_expired_tokens now (cleanup_expired_tokens now store).1 =
        ((cleanup_expired_tokens now store).1, 0) := by
  intro now store
  have hmap : ∀ s : Store, (cleanup_expired_tokens now s).1 =
      s.map (fun t => if decide (t.expira_en < now) && t.activo
                      then { t with activo := false } else t) := fun _ => rfl
  have hcnt : ∀ s : Store, (cleanup_expired_tokens now s).2 =
      (s.filter (fun t => decide (t.expira_en < now) && t.activo)).length := fun _ => rfl
  refine ⟨hcnt store, ?_, ?_⟩
  · rw [hmap store, List.forall₂_map_right_iff, List.forall₂_same]
    intro x _
    constructor
    · intro hcond
      rw [if_pos (by simp [hcond.1, hcond.2])]
    · intro hcond
      rw [if_neg (by simpa using hcond)]
  · have hfalse := cleanup_members now store
    have h2 : (cleanup_expired_tokens now store).1.filter
        (fun t => decide (t.expira_en < now) && t.activo) = [] := by
      rw [List.filter_eq_nil_iff]
      intro a ha
      simp [hfalse a ha]
    have h3 : (cleanup_expired_tokens now ((cleanup_expired_tokens now store).1)).1 =
        (cleanup_expired_tokens now store).1 := by
      rw [hmap]
      have hcg := List.map_congr_left (l := (cleanup_expired_tokens now store).1)
        (f := fun t => if decide (t.expira_en < now) && t.activo
                       then { t with activo := false } else t)
        (g := fun t => t)
        (fun a ha => if_neg (by simp [hfalse a ha]))
      rw [hcg, List.map_id']
    have h4 : (cleanup_expired_tokens now ((cleanup_expired_tokens now store).1)).2 = 0 := by
      rw [hcnt, h2]
      rfl
    exact Prod.ext h3 h4

/-- Witness for C8 at a concrete expired store: the second sweep at the same
time affects zero rows and returns the once-swept store. -/
theorem cleanup_exact_idempotent_witness :
    cleanup_expired_tokens 200000 (cleanup_expired_tokens 200000 [tok_a]).1 =
      ((cleanup_expired_tokens 200000 [tok_a]).1, 0) :=
  (cleanup_exact_idempotent 200000 [tok_a]).2.2

/-- A successful generation appends exactly one fresh row, unconsumed and
with a null consumption time. -/
theorem generate_ok_shape (now : Int) (nextId : Nat) (gen : Nat → String) (fuel : Nat)
    (qr : Option String) (req : TokenGenerationRequest) (store s1 : Store) (t : QRToken)
    (hg : generate_qr_token now nextId gen fuel qr req store = some (.ok (s1, t))) :
    s1 = store ++ [t] ∧ t.usado = false ∧ t.usado_en = none := by
  unfold generate_qr_token at hg
  split at hg
  · simp at hg
  · split at hg
    · simp at hg
    · split at hg
      · simp at hg
      · simp only [Option.some.injEq, Except.ok.injEq, Prod.mk.injEq] at hg
        obtain ⟨hs, ht⟩ := hg
        subst ht
        exact ⟨hs.symm, rfl, rfl⟩

/-- A member of `modify_first f tok store` is an untouched member of `store`
or the image under `f` of a member of `store`. -/
theorem mem_modify_first (f : QRToken → QRToken) (tok : String) :
    ∀ (store : Store) (t : QRToken), t ∈ modify_first f tok store →
      t ∈ store ∨ ∃ u ∈ store, t = f u := by
  intro store
  induction store with
  | nil => intro t ht; exact absurd ht (List.not_mem_nil t)
  | cons a as ih =>
    intro t ht
    unfold modify_first at ht
    by_cases h : (a.token == tok) = true
    · rw [if_pos h] at ht
      rcases List.mem_cons.mp ht with h1 | h1
      · exact Or.inr ⟨a, List.mem_cons_self a as, h1⟩
      · exact Or.inl (List.mem_cons_of_mem a h1)
    · rw [if_neg h] at ht
      rcases List.mem_cons.mp ht with h1 | h1
      · exact Or.inl (h1 ▸ List.mem_cons_self a as)
      · rcases ih t h1 with h2 | ⟨u, hu, h3⟩
        · exact Or.inl (List.mem_cons_of_mem a h2)
        · exact Or.inr ⟨u, List.mem_cons_of_mem a hu, h3⟩

/-- Every single endpoint call preserves the `usado_en iff usado` invariant. -/
theorem apply_op_preserves (op : Op) (store : Store)
    (hinv : consumedInv store) : consumedInv (apply_op op store) := by
  cases op with
  | generate now nextId gen fuel qr req =>
    dsimp only [apply_op]
    cases hg : generate_qr_token now nextId gen fuel qr req store with
    | none => exact hinv
    | some e =>
      cases e with
      | error _ => exact hinv
      | ok p =>
        obtain ⟨s1, t⟩ := p
        obtain ⟨hs, hu, hue⟩ := generate_ok_shape now nextId gen fuel qr req store s1 t hg
        dsimp only
        intro x hx
        rw [hs] at hx
        rcases List.mem_append.mp hx with h | h
        · exact hinv x h
        · have hx1 : x = t := List.mem_singleton.mp h
          subst hx1
          rw [hu, hue]
          simp
  | validate now tok =>
    dsimp only [apply_op]
    rw [validate_token_fst now tok store]
    exact hinv
  | use now tok =>
    dsimp only [apply_op]
    unfold use_token
    cases hf : store.find? (fun t => t.token == tok) with
    | none => exact hinv
    | some db =>
      dsimp only
      by_cases h1 : (!db.activo) = true
      · rw [if_pos h1]
        exact hinv
      · rw [if_neg h1]
        by_cases h2 : db.usado = true
        · rw [if_pos h2]
          exact hinv
        · rw [if_neg h2]
          by_cases h3 : now > db.expira_en
          · rw [if_pos h3]
            exact hinv
          · rw [if_neg h3]
            intro x hx
            dsimp only at hx
            rcases mem_modify_first
                (fun t => { t with usado := true, usado_en := some now }) tok store x hx with
              h | ⟨u, _, hxe⟩
            · exact hinv x h
            · rw [hxe]
              simp
  | update tok req =>
    dsimp only [apply_op]
    unfold update_token_admin
    cases hf : store.find? (fun t => t.token == tok) with
    | none => exact hinv
    | some _ =>
      dsimp only
      intro x hx
      rcases mem_modify_first (apply_update req) tok store x hx with h | ⟨u, hu, hxe⟩
      · exact hinv x h
      · rw [hxe]
        rw [(apply_update_usado req u).1, (apply_update_usado req u).2]
        exact hinv u hu
  | refresh now tok h =>
    dsimp only [apply_op]
    unfold refresh_token
    cases hf : store.find? (fun t => t.token == tok) with
    | none => exact hinv
    | some _ =>
      dsimp only
      intro x hx
      rcases mem_modify_first (apply_refresh now h) tok store x hx with h1 | ⟨u, hu, hxe⟩
      · exact hinv x h1
      · rw [hxe]
        rw [(apply_refresh_usado now h u).1, (apply_refresh_usado now h u).2]
        exact hinv u hu
  | deactivateEmployee e =>
    dsimp only [apply_op]
    unfold deactivate_employee_tokens
    dsimp only
    intro x hx
    rw [List.mem_map] at hx
    obtain ⟨u, hu, heq⟩ := hx
    rw [← heq]
    by_cases hc : (u.empleado_id == e && u.activo) = true
    · rw [if_pos hc]
      exact hinv u hu
    · rw [if_neg hc]
      exact hinv u hu
  | cleanup now =>
    dsimp only [apply_op]
    unfold cleanup_expired_tokens
    dsimp only
    intro x hx
    rw [List.mem_map] at hx
    obtain ⟨u, hu, heq⟩ := hx
    rw [← heq]
    by_cases hc : (decide (u.expira_en < now) && u.activo) = true
    · rw [if_pos hc]
      exact hinv u hu
    · rw [if_neg hc]
      exact hinv u hu

/-- C9: on every store reachable from a fresh (empty) store by any sequence
of endpoint calls, `usado_en` is non-null exactly when `usado` is true; and
generation always creates its row with `usado = false` and `usado_en = null`. -/
theorem consumed_iff_consumedAt :
    (∀ ops : List Op, consumedInv (run_ops ops [])) ∧
    (∀ (now : Int) (nextId : Nat) (tok : String) (qr : Option String)
        (req : TokenGenerationRequest),
      (mk_db_token now nextId tok qr req).usado = false ∧
      (mk_db_token now nextId tok qr req).usado_en = none) := by
  constructor
  · have all : ∀ (ops : List Op) (store : Store),
        consumedInv store → consumedInv (run_ops ops store) := by
      intro ops
      induction ops with
      | nil => intro store h; exact h
      | cons op rest ih =>
        intro store h
        exact ih (apply_op op store) (apply_op_preserves op store h)
    intro ops
    refine all ops [] ?_
    intro t ht
    exact absurd ht (List.not_mem_nil t)
  · intro now nextId tok qr req
    exact ⟨rfl, rfl⟩
